import Mathlib

/-!
Shallow embedding of the HID++ core of the `lus/logy` repository
(crates `hidpp` and `logy`), covering:

* nibble and packed-BCD utilities (`src/hidpp/src/nibble.rs`, `bcd.rs`),
* HID++ message framing (`src/hidpp/src/channel.rs`),
* the channel's pending-request dispatcher, software-ID allocator and
  send path (`src/hidpp/src/channel.rs`),
* the HID++1.0 and HID++2.0 protocol layers
  (`src/hidpp/src/protocol/{v10,v20}.rs`),
* the protocol-version probe (`src/hidpp/src/protocol/mod.rs`),
* the Bolt receiver's unsolicited-message listener
  (`src/hidpp/src/receiver/bolt.rs`).

Bytes (Rust `u8`) are modelled as `Nat` with explicit `% 256` wherever u8
arithmetic can wrap; the 4-bit `U4` type is modelled as `Fin 16`.
Fixed-size Rust arrays are modelled as `List Nat` together with length
hypotheses where a statement depends on them.
-/

/-- Rust `U4`: an unsigned 4-bit value (nibble). -/
abbrev U4 := Fin 16

namespace U4

/-- `U4::from_lo`: nibble from the 4 low bits of a byte. -/
def from_lo (raw : Nat) : U4 := ⟨raw % 16, Nat.mod_lt _ (by omega)⟩

/-- `U4::from_hi`: nibble from the 4 high bits of a byte (`raw >> 4` on u8). -/
def from_hi (raw : Nat) : U4 := ⟨raw % 256 / 16, by omega⟩

/-- `U4::to_lo`: the nibble as the 4 low bits of a byte. -/
def to_lo (x : U4) : Nat := x.val

/-- `U4::to_hi`: the nibble as the 4 high bits of a byte (`self.0 << 4`). -/
def to_hi (x : U4) : Nat := (x.val <<< 4) % 256

end U4

/-- `nibble::combine`: combines two nibbles into one byte, `a` high, `b` low. -/
def combine (a b : U4) : Nat := a.to_hi ||| b.to_lo

/-- `bcd::convert_packed_u8`: decodes one packed-BCD byte.  `Err(())` is
modelled as `none`. -/
def convert_packed_u8 (bcd : Nat) : Option Nat :=
  let digit_0 := (U4.from_hi bcd).to_lo
  let digit_1 := (U4.from_lo bcd).to_lo
  if digit_0 > 9 || digit_1 > 9 then none else some (digit_0 * 10 + digit_1)

/-- `bcd::convert_packed_u16`: decodes a packed-BCD u16 (big-endian bytes). -/
def convert_packed_u16 (bcd : Nat) : Option Nat := do
  let digits_0 ← convert_packed_u8 ((bcd % 65536) >>> 8)
  let digits_1 ← convert_packed_u8 (bcd % 256)
  pure (digits_0 * 100 + digits_1)

/-- `channel::SHORT_REPORT_ID`. -/
def SHORT_REPORT_ID : Nat := 0x10

/-- `channel::LONG_REPORT_ID`. -/
def LONG_REPORT_ID : Nat := 0x11

/-- `channel::SHORT_REPORT_LENGTH` (including the report ID byte). -/
def SHORT_REPORT_LENGTH : Nat := 7

/-- `channel::LONG_REPORT_LENGTH` (including the report ID byte). -/
def LONG_REPORT_LENGTH : Nat := 20

/-- `receiver::RECEIVER_DEVICE_INDEX`. -/
def RECEIVER_DEVICE_INDEX : Nat := 0xff

/-- `channel::HidppMessage`: an unversioned HID++ message.  The payload
excludes the 1-byte report ID; a well-formed `Short` payload has 6 bytes
and a well-formed `Long` payload has 19 (see `HidppMessage.wellFormed`). -/
inductive HidppMessage
  | Short (payload : List Nat)
  | Long (payload : List Nat)
deriving DecidableEq, Repr

/-- The fixed-size array invariant of the Rust `HidppMessage` payloads
(`[u8; 6]` for `Short`, `[u8; 19]` for `Long`). -/
def HidppMessage.wellFormed : HidppMessage → Prop
  | .Short p => p.length = SHORT_REPORT_LENGTH - 1
  | .Long p => p.length = LONG_REPORT_LENGTH - 1

/-- `HidppMessage::read_raw`: tries to parse a HID++ message from raw frame
bytes (report ID first). -/
def read_raw (data : List Nat) : Option HidppMessage :=
  if data.isEmpty then none
  else if data.getD 0 0 = SHORT_REPORT_ID then
    if data.length ≠ SHORT_REPORT_LENGTH then none
    else some (.Short (data.drop 1))
  else if data.getD 0 0 = LONG_REPORT_ID then
    if data.length ≠ LONG_REPORT_LENGTH then none
    else some (.Long (data.drop 1))
  else none

/-- Models writing `src` into `buf[start .. start + src.len()]`
(faithful to the Rust slice copy when `start + src.length ≤ buf.length`). -/
def writeSlice (buf : List Nat) (start : Nat) (src : List Nat) : List Nat :=
  buf.take start ++ src ++ buf.drop (start + src.length)

/-- `HidppMessage::write_raw`: writes the message into a buffer and returns
the updated buffer along with the number of written bytes. -/
def write_raw (msg : HidppMessage) (buf : List Nat) : List Nat × Nat :=
  match msg with
  | .Short payload =>
      (writeSlice (writeSlice buf 0 [SHORT_REPORT_ID]) 1 payload, SHORT_REPORT_LENGTH)
  | .Long payload =>
      (writeSlice (writeSlice buf 0 [LONG_REPORT_ID]) 1 payload, LONG_REPORT_LENGTH)

namespace v10

/-- `protocol::v10::MessageHeader`. -/
structure MessageHeader where
  device_index : Nat
  sub_id : Nat
deriving DecidableEq, Repr

/-- `protocol::v10::Message`: a HID++1.0 message.  A well-formed `Short`
payload has 4 bytes, a well-formed `Long` payload has 17. -/
inductive Message
  | Short (header : MessageHeader) (payload : List Nat)
  | Long (header : MessageHeader) (payload : List Nat)
deriving DecidableEq, Repr

/-- `v10::Message::header`. -/
def Message.header : Message → MessageHeader
  | .Short h _ => h
  | .Long h _ => h

/-- `v10::Message::extend_payload`: the payload zero-padded to the longest
possible (17-byte) payload. -/
def Message.extend_payload : Message → List Nat
  | .Short _ p => p ++ List.replicate (LONG_REPORT_LENGTH - 3 - (SHORT_REPORT_LENGTH - 3)) 0
  | .Long _ p => p

/-- `impl From<HidppMessage> for v10::Message`. -/
def ofHidpp : HidppMessage → Message
  | .Short p => .Short ⟨p.getD 0 0, p.getD 1 0⟩ (p.drop 2)
  | .Long p => .Long ⟨p.getD 0 0, p.getD 1 0⟩ (p.drop 2)

/-- `impl From<v10::Message> for HidppMessage`. -/
def Message.toHidpp : Message → HidppMessage
  | .Short h p => .Short ([h.device_index, h.sub_id] ++ p)
  | .Long h p => .Long ([h.device_index, h.sub_id] ++ p)

/-- `protocol::v10::MessageType`: globally defined HID++1.0 sub IDs. -/
inductive MessageType
  | SetRegister
  | GetRegister
  | SetLongRegister
  | GetLongRegister
  | Error
deriving DecidableEq, Repr

/-- `impl From<MessageType> for u8` (the `#[repr(u8)]` discriminants). -/
def MessageType.toNat : MessageType → Nat
  | .SetRegister => 0x80
  | .GetRegister => 0x81
  | .SetLongRegister => 0x82
  | .GetLongRegister => 0x83
  | .Error => 0x8f

/-- `protocol::v10::ErrorType`: HID++1.0 error codes. -/
inductive ErrorType
  | Success
  | InvalidSubId
  | InvalidAddress
  | InvalidValue
  | ConnectFail
  | TooManyDevices
  | AlreadyExists
  | Busy
  | UnknownDevice
  | ResourceError
  | RequestUnavailable
  | InvalidParamValue
  | WrongPinCode
deriving DecidableEq, Repr

/-- `impl From<ErrorType> for u8`. -/
def ErrorType.toNat : ErrorType → Nat
  | .Success => 0x00
  | .InvalidSubId => 0x01
  | .InvalidAddress => 0x02
  | .InvalidValue => 0x03
  | .ConnectFail => 0x04
  | .TooManyDevices => 0x05
  | .AlreadyExists => 0x06
  | .Busy => 0x07
  | .UnknownDevice => 0x08
  | .ResourceError => 0x09
  | .RequestUnavailable => 0x0a
  | .InvalidParamValue => 0x0b
  | .WrongPinCode => 0x0c

/-- `ErrorType::try_from` (`TryFromPrimitive`); `none` models `Err`. -/
def ErrorType.fromNat : Nat → Option ErrorType
  | 0x00 => some .Success
  | 0x01 => some .InvalidSubId
  | 0x02 => some .InvalidAddress
  | 0x03 => some .InvalidValue
  | 0x04 => some .ConnectFail
  | 0x05 => some .TooManyDevices
  | 0x06 => some .AlreadyExists
  | 0x07 => some .Busy
  | 0x08 => some .UnknownDevice
  | 0x09 => some .ResourceError
  | 0x0a => some .RequestUnavailable
  | 0x0b => some .InvalidParamValue
  | 0x0c => some .WrongPinCode
  | _ => none

/-- `protocol::v10::is_rap_response`: checks whether an inbound message is a
register-access response for the given device, message type and address. -/
def is_rap_response (device : Nat) (msg_type : MessageType) (address : Nat)
    (msg : HidppMessage) : Bool :=
  let raw : List Nat := match msg with
    | .Short d => d.take 4
    | .Long d => d.take 4
  raw.getD 0 0 == device &&
    ((raw.getD 1 0 == msg_type.toNat && raw.getD 2 0 == address) ||
      (raw.getD 1 0 == MessageType.Error.toNat &&
        raw.getD 2 0 == msg_type.toNat && raw.getD 3 0 == address))

/-- The response predicate `read_register` registers with `HidppChannel::send`. -/
def read_register_pred (device address : Nat) (raw : HidppMessage) : Bool :=
  is_rap_response device MessageType.GetRegister address raw

/-- The response predicate `write_register` registers with `HidppChannel::send`. -/
def write_register_pred (device address : Nat) (raw : HidppMessage) : Bool :=
  is_rap_response device MessageType.SetRegister address raw

/-- The response predicate `read_long_register` registers with `HidppChannel::send`. -/
def read_long_register_pred (device address : Nat) (raw : HidppMessage) : Bool :=
  is_rap_response device MessageType.GetLongRegister address raw

/-- The response predicate `write_long_register` registers with `HidppChannel::send`. -/
def write_long_register_pred (device address : Nat) (raw : HidppMessage) : Bool :=
  is_rap_response device MessageType.SetLongRegister address raw

end v10

namespace v20

/-- `protocol::v20::MessageHeader`. -/
structure MessageHeader where
  device_index : Nat
  feature_index : Nat
  function_id : U4
  software_id : U4
deriving DecidableEq, Repr

/-- `protocol::v20::Message`: a HID++2.0 message.  A well-formed `Short`
payload has 3 bytes, a well-formed `Long` payload has 16. -/
inductive Message
  | Short (header : MessageHeader) (payload : List Nat)
  | Long (header : MessageHeader) (payload : List Nat)
deriving DecidableEq, Repr

/-- `v20::Message::header`. -/
def Message.header : Message → MessageHeader
  | .Short h _ => h
  | .Long h _ => h

/-- `v20::Message::extend_payload`: the payload zero-padded to the longest
possible (16-byte) payload. -/
def Message.extend_payload : Message → List Nat
  | .Short _ p => p ++ List.replicate (LONG_REPORT_LENGTH - 4 - (SHORT_REPORT_LENGTH - 4)) 0
  | .Long _ p => p

/-- `impl From<HidppMessage> for v20::Message`. -/
def ofHidpp : HidppMessage → Message
  | .Short p =>
      .Short
        ⟨p.getD 0 0, p.getD 1 0, U4.from_hi (p.getD 2 0), U4.from_lo (p.getD 2 0)⟩
        (p.drop 3)
  | .Long p =>
      .Long
        ⟨p.getD 0 0, p.getD 1 0, U4.from_hi (p.getD 2 0), U4.from_lo (p.getD 2 0)⟩
        (p.drop 3)

/-- `impl From<v20::Message> for HidppMessage`. -/
def Message.toHidpp : Message → HidppMessage
  | .Short h p =>
      .Short ([h.device_index, h.feature_index, combine h.function_id h.software_id] ++ p)
  | .Long h p =>
      .Long ([h.device_index, h.feature_index, combine h.function_id h.software_id] ++ p)

/-- `protocol::v20::ErrorType`: HID++2.0 feature error codes. -/
inductive ErrorType
  | NoError
  | Unknown
  | InvalidArgument
  | OutOfRange
  | HwError
  | LogitechInternal
  | InvalidFeatureIndex
  | InvalidFunctionId
  | Busy
  | Unsupported
deriving DecidableEq, Repr

/-- `impl From<ErrorType> for u8`. -/
def ErrorType.toNat : ErrorType → Nat
  | .NoError => 0
  | .Unknown => 1
  | .InvalidArgument => 2
  | .OutOfRange => 3
  | .HwError => 4
  | .LogitechInternal => 5
  | .InvalidFeatureIndex => 6
  | .InvalidFunctionId => 7
  | .Busy => 8
  | .Unsupported => 9

/-- `ErrorType::try_from` (`TryFromPrimitive`); `none` models `Err`. -/
def ErrorType.fromNat : Nat → Option ErrorType
  | 0 => some .NoError
  | 1 => some .Unknown
  | 2 => some .InvalidArgument
  | 3 => some .OutOfRange
  | 4 => some .HwError
  | 5 => some .LogitechInternal
  | 6 => some .InvalidFeatureIndex
  | 7 => some .InvalidFunctionId
  | 8 => some .Busy
  | 9 => some .Unsupported
  | _ => none

end v20

/-- `channel::ChannelError`.  The boxed implementation error is modelled as a
`String`. -/
inductive ChannelError
  | Implementation (inner : String)
  | ReportDescriptor
  | HidppNotSupported
  | MessageTypeNotSupported
  | NoResponse
deriving DecidableEq, Repr

/-- `channel::PendingMessage`: a sent message waiting for a response.  The
oneshot sender is modelled by an opaque identifier. -/
structure PendingMessage where
  response_predicate : HidppMessage → Bool
  sender : Nat

/-- One iteration of the correlation step of the reader loop spawned in
`HidppChannel::from_raw_channel`, acting on the pending-message queue: find
the position of the first pending entry whose predicate accepts the message,
remove exactly that entry and hand it the message.  Returns the entry that
received the message (`none` when no predicate matched; the `matched` flag
passed to listeners is exactly `isSome` of this component) together with the
remaining queue. -/
def dispatchStep (msgs : List PendingMessage) (msg : HidppMessage) :
    Option PendingMessage × List PendingMessage :=
  match msgs.findIdx? (fun elem => elem.response_predicate msg) with
  | some pos => (msgs[pos]?, msgs.eraseIdx pos)
  | none => (none, msgs)

/-- `HidppChannel::supports_msg`, with the channel's two capability flags
made explicit. -/
def supports_msg (supports_short supports_long : Bool) : HidppMessage → Bool
  | .Short _ => supports_short
  | .Long _ => supports_long

/-- `HidppChannel::send_and_forget`: the outcome of the underlying
`write_report` call is passed in as `writeResult` (`Except String Unit`,
mirroring `Result<usize, Box<dyn Error>>` up to the unused byte count). -/
def send_and_forget (supports_short supports_long : Bool) (msg : HidppMessage)
    (writeResult : Except String Unit) : Except ChannelError Unit :=
  if !supports_msg supports_short supports_long msg then
    .error .MessageTypeNotSupported
  else
    match writeResult with
    | .ok _ => .ok ()
    | .error e => .error (.Implementation e)

/-- The state mutation performed by `HidppChannel::send` up to the point where
it starts awaiting the oneshot receiver: check support, push the new pending
entry onto the queue, then write the frame via `send_and_forget`.  Returns the
result `send` would propagate (an error short-circuits via `?`) and the
pending queue as left behind by the call. -/
def send_step (supports_short supports_long : Bool) (st : List PendingMessage)
    (msg : HidppMessage) (entry : PendingMessage)
    (writeResult : Except String Unit) :
    Except ChannelError Unit × List PendingMessage :=
  if !supports_msg supports_short supports_long msg then
    (.error .MessageTypeNotSupported, st)
  else
    (send_and_forget supports_short supports_long msg writeResult, st ++ [entry])

/-- The software-ID related state of `HidppChannel` (`rotate_software_id` and
`software_id`; the latter is a u8). -/
structure ChannelState where
  rotate_software_id : Bool
  software_id : Nat
deriving DecidableEq, Repr

/-- The software-ID state installed by `HidppChannel::from_raw_channel`:
rotation disabled, software ID `0x01`. -/
def initialChannelState : ChannelState := ⟨false, 0x01⟩

/-- `HidppChannel::set_sw_id`. -/
def set_sw_id (s : ChannelState) (sw_id : U4) : ChannelState :=
  { s with software_id := sw_id.to_lo }

/-- `HidppChannel::set_rotating_sw_id`. -/
def set_rotating_sw_id (s : ChannelState) (enable : Bool) : ChannelState :=
  { s with rotate_software_id := enable }

/-- `HidppChannel::get_sw_id`: when rotating, `fetch_update` stores the
incremented value (wrapping, with `0x0f → 0x01`) and returns the PREVIOUS
value, which is then narrowed via `U4::from_lo`; when not rotating, the
stored value is returned unchanged. -/
def get_sw_id (s : ChannelState) : U4 × ChannelState :=
  if s.rotate_software_id then
    let old := s.software_id
    let nw := if old &&& 0x0f == 0x0f then 0x01 else (old + 1) % 256
    (U4.from_lo old, { s with software_id := nw })
  else
    (U4.from_lo s.software_id, s)

/-- The software-ID state after `n` rotating calls, starting from the
constructor state with rotation enabled. -/
def rotState : Nat → ChannelState
  | 0 => set_rotating_sw_id initialChannelState true
  | n + 1 => (get_sw_id (rotState n)).2

/-- The software ID produced by the `n`-th rotating `get_sw_id` call
(0-indexed), starting from the constructor state with rotation enabled. -/
def rotOutput (n : Nat) : U4 := (get_sw_id (rotState n)).1

/-- `protocol::ProtocolVersion`. -/
inductive ProtocolVersion
  | V10
  | V20 (protocol_num : Nat) (target_sw : Nat)
deriving DecidableEq, Repr

/-- The HID++2.0 ping message `determine_version` sends (feature index 0x00,
function 0x01, payload `[0, 0, 0]`). -/
def probeMsg (device_index : Nat) (sw_id : U4) : v20.Message :=
  .Short ⟨device_index, 0x00, U4.from_lo 0x1, sw_id⟩ [0x00, 0x00, 0x00]

/-- The response predicate the closure in `determine_version` registers with
`HidppChannel::send`. -/
def determine_version_pred (device_index : Nat) (sw_id : U4)
    (resp : HidppMessage) : Bool :=
  let msg := probeMsg device_index sw_id
  if (v20.ofHidpp resp).header = msg.header then true
  else
    match v10.ofHidpp resp with
    | .Short header payload =>
        header.device_index == device_index &&
          header.sub_id == v10.MessageType.Error.toNat &&
          payload.getD 0 0 == 0x00 &&
          payload.getD 1 0 == combine msg.header.function_id sw_id
    | .Long _ _ => false

/-- The classification `determine_version` performs on the response received
from `HidppChannel::send` (the code following the `.await?`): a matching
v2.0 header yields `V20{protocol_num, target_sw}` from payload bytes 0 and 1;
otherwise a short v1.0 message with error code `InvalidSubId` at payload
byte 2 yields `V10`, any other error code (or a long message) yields `none`
("device index does not resolve"). -/
def determine_version_classify (device_index : Nat) (sw_id : U4)
    (response : HidppMessage) : Option ProtocolVersion :=
  let msg := probeMsg device_index sw_id
  let v20_msg := v20.ofHidpp response
  if v20_msg.header = msg.header then
    let payload := v20_msg.extend_payload
    some (.V20 (payload.getD 0 0) (payload.getD 1 0))
  else
    match v10.ofHidpp response with
    | .Short _ payload =>
        if payload.getD 2 0 = v10.ErrorType.InvalidSubId.toNat then
          some .V10
        else
          none
    | .Long _ _ => none

/-- `protocol::v20::Hidpp20Error`. -/
inductive Hidpp20Error
  | Channel (e : ChannelError)
  | Feature (e : v20.ErrorType)
  | UnsupportedResponse
deriving DecidableEq, Repr

/-- The response predicate the closure in `HidppChannel::send_v20` registers
with `HidppChannel::send`, for a request with header `header`. -/
def send_v20_pred (header : v20.MessageHeader) (response : HidppMessage) : Bool :=
  let resp_msg := v20.ofHidpp response
  let resp_header := resp_msg.header
  let is_error :=
    resp_header.device_index == header.device_index &&
      resp_header.feature_index == 0xff &&
      combine resp_header.function_id resp_header.software_id == header.feature_index &&
      resp_msg.extend_payload.getD 0 0 == combine header.function_id header.software_id
  is_error || decide (resp_header = header)

/-- The post-processing `send_v20` applies to the correlated response: a
feature index of 0xFF is an error reply whose code sits at payload byte 1 and
is translated via `ErrorType::try_from`. -/
def send_v20_handle (response : v20.Message) :
    Except Hidpp20Error v20.Message :=
  if response.header.feature_index = 0xff then
    match v20.ErrorType.fromNat (response.extend_payload.getD 1 0) with
    | some err => .error (.Feature err)
    | none => .error .UnsupportedResponse
  else
    .ok response

/-- `receiver::bolt::BoltDeviceKind`. -/
inductive BoltDeviceKind
  | Unknown
  | Keyboard
  | Mouse
  | Numpad
  | Presenter
  | Remote
  | Trackball
  | Touchpad
  | Tablet
  | Gamepad
  | Joystick
  | Headset
deriving DecidableEq, Repr

/-- `BoltDeviceKind::try_from` (`TryFromPrimitive`; note the gap at 5 and 6). -/
def BoltDeviceKind.fromNat : Nat → Option BoltDeviceKind
  | 0x00 => some .Unknown
  | 0x01 => some .Keyboard
  | 0x02 => some .Mouse
  | 0x03 => some .Numpad
  | 0x04 => some .Presenter
  | 0x07 => some .Remote
  | 0x08 => some .Trackball
  | 0x09 => some .Touchpad
  | 0x0a => some .Tablet
  | 0x0b => some .Gamepad
  | 0x0c => some .Joystick
  | 0x0d => some .Headset
  | _ => none

/-- `receiver::bolt::BoltPairingError`. -/
inductive BoltPairingError
  | DeviceTimeout
  | Failed
deriving DecidableEq, Repr

/-- `BoltPairingError::try_from`. -/
def BoltPairingError.fromNat : Nat → Option BoltPairingError
  | 0x01 => some .DeviceTimeout
  | 0x02 => some .Failed
  | _ => none

/-- `receiver::bolt::BoltPairingPasskeyPressType`. -/
inductive BoltPairingPasskeyPressType
  | Initialization
  | Keypress
  | Submit
deriving DecidableEq, Repr

/-- `BoltPairingPasskeyPressType::try_from`. -/
def BoltPairingPasskeyPressType.fromNat : Nat → Option BoltPairingPasskeyPressType
  | 0x00 => some .Initialization
  | 0x01 => some .Keypress
  | 0x04 => some .Submit
  | _ => none

/-- Models Rust `str::from_utf8(..).is_ok()` on a byte sequence: the standard
UTF-8 well-formedness check (RFC 3629 ranges, surrogates and overlong
encodings rejected).  Strings are modelled as their raw byte lists. -/
def utf8Valid : List Nat → Bool
  | [] => true
  | b :: rest =>
    if b < 0x80 then utf8Valid rest
    else if 0xc2 ≤ b ∧ b ≤ 0xdf then
      match rest with
      | c1 :: rest2 => (0x80 ≤ c1 && c1 ≤ 0xbf) && utf8Valid rest2
      | [] => false
    else if b = 0xe0 then
      match rest with
      | c1 :: c2 :: rest2 =>
          (0xa0 ≤ c1 && c1 ≤ 0xbf) && (0x80 ≤ c2 && c2 ≤ 0xbf) && utf8Valid rest2
      | _ => false
    else if (0xe1 ≤ b ∧ b ≤ 0xec) ∨ b = 0xee ∨ b = 0xef then
      match rest with
      | c1 :: c2 :: rest2 =>
          (0x80 ≤ c1 && c1 ≤ 0xbf) && (0x80 ≤ c2 && c2 ≤ 0xbf) && utf8Valid rest2
      | _ => false
    else if b = 0xed then
      match rest with
      | c1 :: c2 :: rest2 =>
          (0x80 ≤ c1 && c1 ≤ 0x9f) && (0x80 ≤ c2 && c2 ≤ 0xbf) && utf8Valid rest2
      | _ => false
    else if b = 0xf0 then
      match rest with
      | c1 :: c2 :: c3 :: rest2 =>
          (0x90 ≤ c1 && c1 ≤ 0xbf) && (0x80 ≤ c2 && c2 ≤ 0xbf) &&
            (0x80 ≤ c3 && c3 ≤ 0xbf) && utf8Valid rest2
      | _ => false
    else if 0xf1 ≤ b ∧ b ≤ 0xf3 then
      match rest with
      | c1 :: c2 :: c3 :: rest2 =>
          (0x80 ≤ c1 && c1 ≤ 0xbf) && (0x80 ≤ c2 && c2 ≤ 0xbf) &&
            (0x80 ≤ c3 && c3 ≤ 0xbf) && utf8Valid rest2
      | _ => false
    else if b = 0xf4 then
      match rest with
      | c1 :: c2 :: c3 :: rest2 =>
          (0x80 ≤ c1 && c1 ≤ 0x8f) && (0x80 ≤ c2 && c2 ≤ 0xbf) &&
            (0x80 ≤ c3 && c3 ≤ 0xbf) && utf8Valid rest2
      | _ => false
    else false
termination_by l => l.length
decreasing_by all_goals simp_all <;> omega

/-- `receiver::bolt::BoltDeviceConnection` (event data). -/
structure BoltDeviceConnection where
  index : Nat
  kind : BoltDeviceKind
  encrypted : Bool
  online : Bool
  wpid : Nat
deriving DecidableEq, Repr

/-- `receiver::bolt::BoltDeviceDiscoveryDeviceDetails` (event data). -/
structure BoltDeviceDiscoveryDeviceDetails where
  counter : Nat
  kind : BoltDeviceKind
  wpid : Nat
  address : List Nat
  authentication : Nat
deriving DecidableEq, Repr

/-- `receiver::bolt::BoltDeviceDiscoveryDeviceName` (event data; the name is
kept as its UTF-8 byte list). -/
structure BoltDeviceDiscoveryDeviceName where
  counter : Nat
  name : List Nat
deriving DecidableEq, Repr

/-- `receiver::bolt::BoltDeviceDiscoveryStatus` (event data). -/
structure BoltDeviceDiscoveryStatus where
  discovery_enabled : Bool
deriving DecidableEq, Repr

/-- `receiver::bolt::BoltPairingStatus` (event data). -/
structure BoltPairingStatus where
  device_address : List Nat
  pairing_error : Option BoltPairingError
  slot : Option Nat
deriving DecidableEq, Repr

/-- `receiver::bolt::BoltPairingPasskeyRequest` (event data; the passkey is
kept as its UTF-8 byte list). -/
structure BoltPairingPasskeyRequest where
  device_address : List Nat
  passkey : List Nat
deriving DecidableEq, Repr

/-- `receiver::bolt::BoltPairingPasskeyPressed` (event data). -/
structure BoltPairingPasskeyPressed where
  device_address : List Nat
  press_type : BoltPairingPasskeyPressType
deriving DecidableEq, Repr

/-- `receiver::bolt::BoltEvent`. -/
inductive BoltEvent
  | DeviceConnection (d : BoltDeviceConnection)
  | DeviceDiscoveryDeviceDetails (d : BoltDeviceDiscoveryDeviceDetails)
  | DeviceDiscoveryDeviceName (d : BoltDeviceDiscoveryDeviceName)
  | DeviceDiscoveryStatus (d : BoltDeviceDiscoveryStatus)
  | PairingStatus (d : BoltPairingStatus)
  | PairingPasskeyRequest (d : BoltPairingPasskeyRequest)
  | PairingPasskeyPressed (d : BoltPairingPasskeyPressed)
deriving DecidableEq, Repr

/-- The message listener `BoltReceiver::new` registers via
`HidppChannel::add_msg_listener`.  The Rust closure receives
`(raw, matched)` and emits at most one `BoltEvent` per call; the emitted
events are returned as a list (`[]` models "the closure returned without
emitting"). -/
def bolt_msg_listener (raw : HidppMessage) (matched : Bool) : List BoltEvent :=
  if matched then []
  else
    let parsed := v10.ofHidpp raw
    let header := parsed.header
    let payload := parsed.extend_payload
    if header.device_index ≠ RECEIVER_DEVICE_INDEX ∧ header.sub_id ≠ 0x41 then []
    else if header.sub_id = 0x41 then
      match BoltDeviceKind.fromNat (payload.getD 1 0 &&& 0x0f) with
      | none => []
      | some kind =>
          [.DeviceConnection
            { index := header.device_index
              kind := kind
              encrypted := payload.getD 1 0 &&& (1 <<< 5) != 0
              online := payload.getD 1 0 &&& (1 <<< 6) == 0
              wpid := payload.getD 2 0 + payload.getD 3 0 * 256 }]
    else if header.sub_id = 0x4f then
      if payload.getD 2 0 = 0 then
        match BoltDeviceKind.fromNat (payload.getD 4 0 &&& 0x0f) with
        | none => []
        | some kind =>
            [.DeviceDiscoveryDeviceDetails
              { counter := payload.getD 0 0 + payload.getD 1 0 * 256
                kind := kind
                wpid := payload.getD 5 0 + payload.getD 6 0 * 256
                address := (payload.drop 7).take 6
                authentication := payload.getD 15 0 }]
      else if payload.getD 2 0 = 1 then
        if utf8Valid ((payload.drop 4).take (payload.getD 3 0)) then
          [.DeviceDiscoveryDeviceName
            { counter := payload.getD 0 0 + payload.getD 1 0 * 256
              name := (payload.drop 4).take (payload.getD 3 0) }]
        else []
      else []
    else if header.sub_id = 0x53 then
      [.DeviceDiscoveryStatus { discovery_enabled := payload.getD 0 0 == 0x00 }]
    else if header.sub_id = 0x54 then
      if payload.getD 1 0 = 0x00 then
        [.PairingStatus
          { device_address := (payload.drop 2).take 6
            pairing_error := none
            slot := if payload.getD 8 0 = 0x00 then none else some (payload.getD 8 0) }]
      else
        match BoltPairingError.fromNat (payload.getD 1 0) with
        | none => []
        | some err =>
            [.PairingStatus
              { device_address := (payload.drop 2).take 6
                pairing_error := some err
                slot := if payload.getD 8 0 = 0x00 then none else some (payload.getD 8 0) }]
    else if header.sub_id = 0x4d then
      if utf8Valid ((payload.drop 1).take 6) then
        [.PairingPasskeyRequest
          { device_address := (payload.drop 7).take 6
            passkey := (payload.drop 1).take 6 }]
      else []
    else if header.sub_id = 0x4e then
      match BoltPairingPasskeyPressType.fromNat (payload.getD 0 0) with
      | none => []
      | some press_type =>
          [.PairingPasskeyPressed
            { device_address := (payload.drop 1).take 6
              press_type := press_type }]
    else []

/-- The raw interior bytes of a HID++ message (both variants carry their
payload directly). -/
def HidppMessage.payload : HidppMessage → List Nat
  | .Short p => p
  | .Long p => p

/-! ## Helper lemmas -/

theorem land_fifteen (m : Nat) : m &&& 15 = m % 16 :=
  Nat.and_pow_two_sub_one_eq_mod m 4

theorem getD_drop_eq (l : List Nat) (n i : Nat) :
    (l.drop n).getD i 0 = l.getD (n + i) 0 := by
  simp [List.getD_eq_getElem?_getD, List.getElem?_drop]

/-! ## C7: packed-BCD decoding -/

theorem convert_packed_u8_fin :
    ∀ a b : Fin 16,
      convert_packed_u8 ((a.val <<< 4) ||| b.val) =
        if a.val ≤ 9 ∧ b.val ≤ 9 then some (a.val * 10 + b.val) else none := by
  decide

/-- C7: `convert_packed_u8` on a byte `(hi<<4)|lo` returns `hi*10+lo` exactly
when both nibbles are at most 9 and fails otherwise; `convert_packed_u16` on
a 2-byte big-endian value returns the decoded high byte times 100 plus the
decoded low byte (so `0x1234` decodes to `1234`) and fails whenever either
byte has a non-BCD nibble. -/
theorem bcd_conversion_correct :
    (∀ hi lo : Nat, hi < 16 → lo < 16 →
      convert_packed_u8 ((hi <<< 4) ||| lo) =
        if hi ≤ 9 ∧ lo ≤ 9 then some (hi * 10 + lo) else none) ∧
    (∀ hb lb d0 d1 : Nat, hb < 256 → lb < 256 →
      convert_packed_u8 hb = some d0 → convert_packed_u8 lb = some d1 →
      convert_packed_u16 (hb * 256 + lb) = some (d0 * 100 + d1)) ∧
    (∀ hb lb : Nat, hb < 256 → lb < 256 →
      (convert_packed_u8 hb = none ∨ convert_packed_u8 lb = none) →
      convert_packed_u16 (hb * 256 + lb) = none) ∧
    convert_packed_u16 0x1234 = some 1234 := by
  have ehi : ∀ hb lb : Nat, hb < 256 → lb < 256 →
      ((hb * 256 + lb) % 65536) >>> 8 = hb := by
    intro hb lb h1 h2
    rw [Nat.shiftRight_eq_div_pow]
    omega
  have elo : ∀ hb lb : Nat, hb < 256 → lb < 256 →
      (hb * 256 + lb) % 256 = lb := by
    intro hb lb h1 h2
    omega
  refine ⟨fun hi lo hh hl => convert_packed_u8_fin ⟨hi, hh⟩ ⟨lo, hl⟩, ?_, ?_, by decide⟩
  · intro hb lb d0 d1 h1 h2 hd0 hd1
    simp [convert_packed_u16, ehi hb lb h1 h2, elo hb lb h1 h2, hd0, hd1]
  · intro hb lb h1 h2 hnone
    rcases hnone with hn | hn
    · simp [convert_packed_u16, ehi hb lb h1 h2, hn]
    · cases hd : convert_packed_u8 hb <;>
        simp [convert_packed_u16, ehi hb lb h1 h2, elo hb lb h1 h2, hd, hn]

/-- Witness for `bcd_conversion_correct` at `hi = 2`, `lo = 4`. -/
theorem bcd_conversion_correct_witness :
    (2 : Nat) < 16 ∧ (4 : Nat) < 16 ∧
      convert_packed_u8 ((2 <<< 4) ||| 4) =
        if (2 : Nat) ≤ 9 ∧ (4 : Nat) ≤ 9 then some (2 * 10 + 4) else none :=
  ⟨by decide, by decide, bcd_conversion_correct.1 2 4 (by decide) (by decide)⟩

/-! ## C5: rotating software-ID generator -/

theorem rotState_eq : ∀ n : Nat, rotState n = ⟨true, n % 15 + 1⟩ := by
  intro n
  induction n with
  | zero => rfl
  | succ n ih =>
      rw [rotState, ih]
      unfold get_sw_id
      simp only [land_fifteen]
      by_cases h : n % 15 = 14
      · simp only [h]
        norm_num
        omega
      · have hb : ((n % 15 + 1) % 16 == 15) = false := by
          simp only [beq_eq_false_iff_ne, ne_eq]
          omega
        simp only [hb]
        simp only [Bool.false_eq_true, if_false, if_true]
        simp
        omega

/-- C5: with rotation enabled (from the constructor state, stored ID 1), the
successive `get_sw_id` outputs are `1, 2, …, 15, 1, 2, …` (the `n`-th call
returns `n % 15 + 1`) and are never 0; with rotation disabled, `get_sw_id`
returns the stored software ID unchanged and leaves the state untouched. -/
theorem get_sw_id_rotation :
    (∀ n : Nat, (rotOutput n).val = n % 15 + 1) ∧
    (∀ n : Nat, (rotOutput n).val ≠ 0) ∧
    (∀ s : ChannelState, s.rotate_software_id = false →
      get_sw_id s = (U4.from_lo s.software_id, s)) := by
  have hout : ∀ n : Nat, (rotOutput n).val = n % 15 + 1 := by
    intro n
    rw [rotOutput, rotState_eq]
    unfold get_sw_id
    simp [U4.from_lo]
    omega
  refine ⟨hout, fun n => by rw [hout n]; omega, ?_⟩
  intro s hs
  unfold get_sw_id
  rw [hs]
  simp

/-- Witness for `get_sw_id_rotation` at `n = 16` (second lap: output 2) and
a concrete non-rotating state. -/
theorem get_sw_id_rotation_witness :
    (rotOutput 16).val = 16 % 15 + 1 ∧
      ((⟨false, 5⟩ : ChannelState).rotate_software_id = false ∧
        get_sw_id ⟨false, 5⟩ = (U4.from_lo 5, ⟨false, 5⟩)) :=
  ⟨get_sw_id_rotation.1 16, rfl, get_sw_id_rotation.2.2 ⟨false, 5⟩ rfl⟩

/-! ## C10: software ID 0 under rotation -/

/-- C10: calling `set_sw_id` with nibble 0 while rotation is enabled makes the
next `get_sw_id` return 0 (the value reserved for device notifications),
after which the rotation resumes at 1; from any rotation-enabled state whose
stored software ID is a nonzero nibble, `get_sw_id` returns a nonzero ID. -/
theorem set_sw_id_zero_emits_zero :
    (∀ s : ChannelState, s.rotate_software_id = true →
      (get_sw_id (set_sw_id s (U4.from_lo 0))).1.val = 0 ∧
        (get_sw_id (set_sw_id s (U4.from_lo 0))).2.software_id = 1 ∧
        (get_sw_id ((get_sw_id (set_sw_id s (U4.from_lo 0))).2)).1.val = 1) ∧
    (∀ s : ChannelState, s.rotate_software_id = true → s.software_id ≠ 0 →
      s.software_id < 16 → (get_sw_id s).1.val ≠ 0) := by
  constructor
  · intro s hs
    unfold get_sw_id set_sw_id
    simp [hs, U4.from_lo, U4.to_lo]
  · intro s hs h0 h16
    unfold get_sw_id
    rw [hs]
    simp [U4.from_lo]
    omega

/-- Witness for `set_sw_id_zero_emits_zero` at a concrete rotating state. -/
theorem set_sw_id_zero_emits_zero_witness :
    ((⟨true, 7⟩ : ChannelState).rotate_software_id = true ∧
      (get_sw_id (set_sw_id ⟨true, 7⟩ (U4.from_lo 0))).1.val = 0 ∧
        (get_sw_id (set_sw_id ⟨true, 7⟩ (U4.from_lo 0))).2.software_id = 1 ∧
        (get_sw_id ((get_sw_id (set_sw_id ⟨true, 7⟩ (U4.from_lo 0))).2)).1.val = 1) :=
  ⟨rfl, (set_sw_id_zero_emits_zero.1 ⟨true, 7⟩ rfl)⟩

/-! ## C6: framing roundtrip -/

/-- C6: for every HID++ message (with its fixed-size payload: 6 bytes for
`Short`, 19 for `Long`) and every buffer large enough to hold the frame, the
decoder applied to exactly the bytes the encoder wrote returns the original
message: `read_raw` of the first `write_raw(msg)` bytes of the updated buffer
is `some msg`. -/
theorem write_read_roundtrip :
    ∀ (msg : HidppMessage) (buf : List Nat),
      msg.wellFormed → (write_raw msg buf).2 ≤ buf.length →
      read_raw (((write_raw msg buf).1).take ((write_raw msg buf).2)) = some msg := by
  intro msg buf hwf hlen
  cases msg with
  | Short p =>
      have hp : p.length = 6 := hwf
      simp only [write_raw]
      have e1 : writeSlice buf 0 [SHORT_REPORT_ID] = SHORT_REPORT_ID :: buf.drop 1 := by
        simp [writeSlice]
      have e2 : writeSlice (SHORT_REPORT_ID :: buf.drop 1) 1 p
          = (SHORT_REPORT_ID :: p) ++ buf.drop 7 := by
        simp [writeSlice, hp, List.drop_drop]
      rw [e1, e2]
      have e3 : ((SHORT_REPORT_ID :: p) ++ buf.drop 7).take SHORT_REPORT_LENGTH
          = SHORT_REPORT_ID :: p := by
        apply List.take_left'
        simp [hp, SHORT_REPORT_LENGTH]
      rw [e3]
      simp [read_raw, SHORT_REPORT_ID, SHORT_REPORT_LENGTH, hp]
  | Long p =>
      have hp : p.length = 19 := hwf
      simp only [write_raw]
      have e1 : writeSlice buf 0 [LONG_REPORT_ID] = LONG_REPORT_ID :: buf.drop 1 := by
        simp [writeSlice]
      have e2 : writeSlice (LONG_REPORT_ID :: buf.drop 1) 1 p
          = (LONG_REPORT_ID :: p) ++ buf.drop 20 := by
        simp [writeSlice, hp, List.drop_drop]
      rw [e1, e2]
      have e3 : ((LONG_REPORT_ID :: p) ++ buf.drop 20).take LONG_REPORT_LENGTH
          = LONG_REPORT_ID :: p := by
        apply List.take_left'
        simp [hp, LONG_REPORT_LENGTH]
      rw [e3]
      simp [read_raw, SHORT_REPORT_ID, LONG_REPORT_ID, LONG_REPORT_LENGTH, hp]

/-- Witness for `write_read_roundtrip` on a concrete short message and a
20-byte buffer. -/
theorem write_read_roundtrip_witness :
    (HidppMessage.Short [1, 2, 3, 4, 5, 6]).wellFormed ∧
      (write_raw (.Short [1, 2, 3, 4, 5, 6]) (List.replicate 20 9)).2 ≤
        (List.replicate 20 9).length ∧
      read_raw (((write_raw (.Short [1, 2, 3, 4, 5, 6]) (List.replicate 20 9)).1).take
          ((write_raw (.Short [1, 2, 3, 4, 5, 6]) (List.replicate 20 9)).2)) =
        some (.Short [1, 2, 3, 4, 5, 6]) :=
  ⟨by simp [HidppMessage.wellFormed, SHORT_REPORT_LENGTH], by decide,
    write_read_roundtrip (.Short [1, 2, 3, 4, 5, 6]) (List.replicate 20 9)
      (by simp [HidppMessage.wellFormed, SHORT_REPORT_LENGTH]) (by decide)⟩

/-! ## C4: v1.0 register-access response predicates -/

/-- C4: for each of the four v1.0 register helpers, over any device index and
address, the response predicate registered with `send` accepts exactly the
frames whose first byte equals the device index and either (second byte = the
request sub-ID and third byte = the address) or (second byte = 0x8F and third
byte = the request sub-ID and fourth byte = the address); the request sub-IDs
are GetRegister 0x81, SetRegister 0x80, GetLongRegister 0x83 and
SetLongRegister 0x82 respectively. -/
theorem rap_register_predicates :
    ∀ (device address : Nat) (msg : HidppMessage),
      (v10.read_register_pred device address msg = true ↔
        (msg.payload.getD 0 0 = device ∧
          ((msg.payload.getD 1 0 = 0x81 ∧ msg.payload.getD 2 0 = address) ∨
            (msg.payload.getD 1 0 = 0x8f ∧ msg.payload.getD 2 0 = 0x81 ∧
              msg.payload.getD 3 0 = address)))) ∧
      (v10.write_register_pred device address msg = true ↔
        (msg.payload.getD 0 0 = device ∧
          ((msg.payload.getD 1 0 = 0x80 ∧ msg.payload.getD 2 0 = address) ∨
            (msg.payload.getD 1 0 = 0x8f ∧ msg.payload.getD 2 0 = 0x80 ∧
              msg.payload.getD 3 0 = address)))) ∧
      (v10.read_long_register_pred device address msg = true ↔
        (msg.payload.getD 0 0 = device ∧
          ((msg.payload.getD 1 0 = 0x83 ∧ msg.payload.getD 2 0 = address) ∨
            (msg.payload.getD 1 0 = 0x8f ∧ msg.payload.getD 2 0 = 0x83 ∧
              msg.payload.getD 3 0 = address)))) ∧
      (v10.write_long_register_pred device address msg = true ↔
        (msg.payload.getD 0 0 = device ∧
          ((msg.payload.getD 1 0 = 0x82 ∧ msg.payload.getD 2 0 = address) ∨
            (msg.payload.getD 1 0 = 0x8f ∧ msg.payload.getD 2 0 = 0x82 ∧
              msg.payload.getD 3 0 = address)))) := by
  intro device address msg
  refine ⟨?_, ?_, ?_, ?_⟩ <;>
    cases msg <;>
      simp [v10.read_register_pred, v10.write_register_pred,
        v10.read_long_register_pred, v10.write_long_register_pred,
        v10.is_rap_response, v10.MessageType.toNat, HidppMessage.payload,
        List.getD_eq_getElem?_getD, List.getElem?_take_of_lt, and_assoc]

/-- Witness for `rap_register_predicates`: a concrete error-shaped frame for
`read_register` on device 0xFF, address 0x02. -/
theorem rap_register_predicates_witness :
    v10.read_register_pred 0xff 0x02 (.Short [0xff, 0x8f, 0x81, 0x02, 7, 0]) = true ↔
      ((HidppMessage.Short [0xff, 0x8f, 0x81, 0x02, 7, 0]).payload.getD 0 0 = 0xff ∧
        (((HidppMessage.Short [0xff, 0x8f, 0x81, 0x02, 7, 0]).payload.getD 1 0 = 0x81 ∧
            (HidppMessage.Short [0xff, 0x8f, 0x81, 0x02, 7, 0]).payload.getD 2 0 = 0x02) ∨
          ((HidppMessage.Short [0xff, 0x8f, 0x81, 0x02, 7, 0]).payload.getD 1 0 = 0x8f ∧
            (HidppMessage.Short [0xff, 0x8f, 0x81, 0x02, 7, 0]).payload.getD 2 0 = 0x81 ∧
            (HidppMessage.Short [0xff, 0x8f, 0x81, 0x02, 7, 0]).payload.getD 3 0 = 0x02))) :=
  (rap_register_predicates 0xff 0x02 (.Short [0xff, 0x8f, 0x81, 0x02, 7, 0])).1

/-! ## C3: send_v20 response predicate and error translation -/

/-- C3: `send_v20`'s response predicate accepts an inbound message exactly
when either its v2.0 header equals the request header, or (error path) the
device index matches, the feature index is 0xFF, the combined
function/software byte equals the original feature index, and the first
payload byte equals `combine(function_id, software_id)` of the original; on
the error path `send_v20` reads the error code at payload byte 1, translates
it via `ErrorType` and fails with `Feature(code)`, failing with
`UnsupportedResponse` exactly for codes outside the documented table
(codes above 9). -/
theorem send_v20_predicate_and_errors :
    (∀ (header : v20.MessageHeader) (resp : HidppMessage),
      send_v20_pred header resp = true ↔
        ((v20.ofHidpp resp).header = header ∨
          ((v20.ofHidpp resp).header.device_index = header.device_index ∧
            (v20.ofHidpp resp).header.feature_index = 0xff ∧
            combine (v20.ofHidpp resp).header.function_id
                (v20.ofHidpp resp).header.software_id = header.feature_index ∧
            (v20.ofHidpp resp).extend_payload.getD 0 0 =
              combine header.function_id header.software_id))) ∧
    (∀ (m : v20.Message) (err : v20.ErrorType),
      m.header.feature_index = 0xff →
      v20.ErrorType.fromNat (m.extend_payload.getD 1 0) = some err →
      send_v20_handle m = .error (.Feature err)) ∧
    (∀ m : v20.Message,
      m.header.feature_index = 0xff →
      v20.ErrorType.fromNat (m.extend_payload.getD 1 0) = none →
      send_v20_handle m = .error .UnsupportedResponse) ∧
    (∀ n : Nat, v20.ErrorType.fromNat n = none ↔ 9 < n) := by
  refine ⟨?_, ?_, ?_, ?_⟩
  · intro header resp
    simp only [send_v20_pred, Bool.or_eq_true, Bool.and_eq_true, beq_iff_eq,
      decide_eq_true_eq]
    tauto
  · intro m err h1 h2
    unfold send_v20_handle
    rw [if_pos h1, h2]
  · intro m h1 h2
    unfold send_v20_handle
    rw [if_pos h1, h2]
  · intro n
    rcases Nat.lt_or_ge n 10 with h | h
    · interval_cases n <;> simp [v20.ErrorType.fromNat]
    · obtain ⟨k, hk⟩ := Nat.exists_eq_add_of_le h
      rw [hk, Nat.add_comm]
      have e : v20.ErrorType.fromNat (k + 10) = none := rfl
      simp [e]

/-- Witness for `send_v20_predicate_and_errors`: the error reply of spec
scenario 3 (request dev 2, feature 7, function 2, software 1). -/
theorem send_v20_predicate_and_errors_witness :
    (send_v20_pred ⟨2, 7, U4.from_lo 2, U4.from_lo 1⟩
        (.Short [0x02, 0xff, 0x07, 0x21, 0x07, 0x00]) = true ↔
      ((v20.ofHidpp (.Short [0x02, 0xff, 0x07, 0x21, 0x07, 0x00])).header =
          ⟨2, 7, U4.from_lo 2, U4.from_lo 1⟩ ∨
        ((v20.ofHidpp (.Short [0x02, 0xff, 0x07, 0x21, 0x07, 0x00])).header.device_index = 2 ∧
          (v20.ofHidpp (.Short [0x02, 0xff, 0x07, 0x21, 0x07, 0x00])).header.feature_index = 0xff ∧
          combine (v20.ofHidpp (.Short [0x02, 0xff, 0x07, 0x21, 0x07, 0x00])).header.function_id
              (v20.ofHidpp (.Short [0x02, 0xff, 0x07, 0x21, 0x07, 0x00])).header.software_id = 7 ∧
          (v20.ofHidpp (.Short [0x02, 0xff, 0x07, 0x21, 0x07, 0x00])).extend_payload.getD 0 0 =
            combine (U4.from_lo 2) (U4.from_lo 1)))) ∧
      send_v20_handle (v20.ofHidpp (.Short [0x02, 0xff, 0x07, 0x21, 0x07, 0x00])) =
        .error (.Feature .InvalidFunctionId) :=
  ⟨send_v20_predicate_and_errors.1 ⟨2, 7, U4.from_lo 2, U4.from_lo 1⟩
      (.Short [0x02, 0xff, 0x07, 0x21, 0x07, 0x00]),
    send_v20_predicate_and_errors.2.1
      (v20.ofHidpp (.Short [0x02, 0xff, 0x07, 0x21, 0x07, 0x00])) .InvalidFunctionId
      (by decide) (by decide)⟩

/-! ## C2: protocol-version probe classification -/

/-- C2: `determine_version` returns `V20{protocol_num, target_sw}` read from
payload bytes 0 and 1 when the reply is a v2.0 message whose header equals
the probe's header; it returns `V10` when the reply is a v1.0 Short error
(sub ID 0x8F, payload byte 0 = 0x00, payload byte 1 = `combine(function_id,
software_id)` of the probe) whose error code (payload byte 2) is
`InvalidSubId` (1); any other v1.0 error code on that shape yields `none`,
the "device index does not resolve" result. -/
theorem determine_version_classification :
    (∀ (dev : Nat) (sw : U4) (resp : HidppMessage),
      (v20.ofHidpp resp).header = (probeMsg dev sw).header →
      determine_version_classify dev sw resp =
        some (.V20 ((v20.ofHidpp resp).extend_payload.getD 0 0)
          ((v20.ofHidpp resp).extend_payload.getD 1 0))) ∧
    (∀ (dev : Nat) (sw : U4) (p : List Nat),
      p.getD 0 0 = dev → p.getD 1 0 = 0x8f → p.getD 2 0 = 0x00 →
      p.getD 3 0 = combine (U4.from_lo 1) sw → p.getD 4 0 = 0x01 →
      determine_version_classify dev sw (.Short p) = some .V10) ∧
    (∀ (dev : Nat) (sw : U4) (p : List Nat),
      p.getD 0 0 = dev → p.getD 1 0 = 0x8f → p.getD 2 0 = 0x00 →
      p.getD 3 0 = combine (U4.from_lo 1) sw → p.getD 4 0 ≠ 0x01 →
      determine_version_classify dev sw (.Short p) = none) := by
  have hne : ∀ (dev : Nat) (sw : U4) (p : List Nat), p.getD 1 0 = 0x8f →
      ¬((v20.ofHidpp (.Short p)).header = (probeMsg dev sw).header) := by
    intro dev sw p h1 hcontra
    have hfi : p.getD 1 0 = 0x00 := congrArg v20.MessageHeader.feature_index hcontra
    rw [h1] at hfi
    exact absurd hfi (by decide)
  refine ⟨?_, ?_, ?_⟩
  · intro dev sw resp h
    simp only [determine_version_classify]
    rw [if_pos h]
  · intro dev sw p h0 h1 h2 h3 h4
    simp only [determine_version_classify]
    rw [if_neg (hne dev sw p h1)]
    simp only [List.getD_eq_getElem?_getD] at h4
    simp [v10.ofHidpp, getD_drop_eq, v10.ErrorType.toNat, h4]
  · intro dev sw p h0 h1 h2 h3 h4
    simp only [determine_version_classify]
    rw [if_neg (hne dev sw p h1)]
    simp only [List.getD_eq_getElem?_getD] at h4
    simp [v10.ofHidpp, getD_drop_eq, v10.ErrorType.toNat, h4]

/-- Witness for `determine_version_classification`: the concrete v2.0 and
v1.0 replies of the version-probe scenarios (device 2, software ID 1). -/
theorem determine_version_classification_witness :
    determine_version_classify 2 (U4.from_lo 1) (.Short [0x02, 0x00, 0x11, 0x04, 0x03, 0x00]) =
        some (.V20 ((v20.ofHidpp (.Short [0x02, 0x00, 0x11, 0x04, 0x03, 0x00])).extend_payload.getD 0 0)
          ((v20.ofHidpp (.Short [0x02, 0x00, 0x11, 0x04, 0x03, 0x00])).extend_payload.getD 1 0)) ∧
      determine_version_classify 2 (U4.from_lo 1) (.Short [0x02, 0x8f, 0x00, 0x11, 0x01, 0x00]) =
        some .V10 ∧
      determine_version_classify 2 (U4.from_lo 1) (.Short [0x02, 0x8f, 0x00, 0x11, 0x02, 0x00]) =
        none :=
  ⟨determine_version_classification.1 2 (U4.from_lo 1)
      (.Short [0x02, 0x00, 0x11, 0x04, 0x03, 0x00]) (by decide),
    determine_version_classification.2.1 2 (U4.from_lo 1) [0x02, 0x8f, 0x00, 0x11, 0x01, 0x00]
      (by decide) (by decide) (by decide) (by decide) (by decide),
    determine_version_classification.2.2 2 (U4.from_lo 1) [0x02, 0x8f, 0x00, 0x11, 0x02, 0x00]
      (by decide) (by decide) (by decide) (by decide) (by decide)⟩

/-! ## C9: Bolt listener ignores correlated messages -/

/-- C9: the message listener the Bolt receiver registers on the channel
returns immediately whenever the was-matched flag is true, so a message that
was correlated to a pending request is never translated into a `BoltEvent`;
only unmatched (unsolicited) inbound messages can produce events. -/
theorem bolt_listener_ignores_matched :
    (∀ raw : HidppMessage, bolt_msg_listener raw true = []) ∧
    (∀ (raw : HidppMessage) (matched : Bool),
      bolt_msg_listener raw matched ≠ [] → matched = false) := by
  refine ⟨fun raw => rfl, ?_⟩
  intro raw matched h
  cases matched with
  | false => rfl
  | true => exact absurd rfl h

/-- Witness for `bolt_listener_ignores_matched`: an unmatched
discovery-status notification does produce an event. -/
theorem bolt_listener_ignores_matched_witness :
    bolt_msg_listener (.Short [0xff, 0x53, 0, 0, 0, 0]) false ≠ [] ∧ false = false :=
  ⟨by decide,
    bolt_listener_ignores_matched.2 (.Short [0xff, 0x53, 0, 0, 0, 0]) false (by decide)⟩

/-! ## C1: the reader dispatches to the earliest matching pending entry -/

/-- C1: for every inbound message, the reader's correlation step delivers it
to at most one pending request: when the first index whose predicate accepts
the message is `i` (so every earlier entry rejects it), exactly the entry at
`i` is removed and handed the message, and the queue that remains is the
original with only that entry deleted (`take i ++ drop (i+1)`); when no
predicate accepts the message, nothing is delivered and the queue is
unchanged. -/
theorem dispatch_earliest_match :
    (∀ (q : List PendingMessage) (m : HidppMessage) (i : Nat) (e : PendingMessage),
      q.findIdx? (fun x => x.response_predicate m) = some i →
      q[i]? = some e →
      (dispatchStep q m).1 = some e ∧
        e.response_predicate m = true ∧
        (∀ j, j < i → ∀ f, q[j]? = some f → f.response_predicate m = false) ∧
        (dispatchStep q m).2 = q.take i ++ q.drop (i + 1)) ∧
    (∀ (q : List PendingMessage) (m : HidppMessage),
      q.findIdx? (fun x => x.response_predicate m) = none →
      dispatchStep q m = (none, q)) := by
  constructor
  · intro q m i e hfind hget
    obtain ⟨hlt, hp, hearlier⟩ := List.findIdx?_eq_some_iff_getElem.1 hfind
    obtain ⟨hlt2, hgete⟩ := List.getElem?_eq_some.1 hget
    refine ⟨?_, ?_, ?_, ?_⟩
    · rw [dispatchStep, hfind]
      exact hget
    · rw [← hgete]
      exact hp
    · intro j hj f hgf
      obtain ⟨hltj, hgetf⟩ := List.getElem?_eq_some.1 hgf
      have hne := hearlier j hj
      rw [hgetf] at hne
      simpa using hne
    · rw [dispatchStep, hfind]
      exact List.eraseIdx_eq_take_drop_succ q i
  · intro q m hnone
    rw [dispatchStep, hnone]

/-- Witness for `dispatch_earliest_match`: a three-entry queue whose second
and third entries both accept, only the second is removed. -/
theorem dispatch_earliest_match_witness :
    (([⟨fun _ => false, 1⟩, ⟨fun _ => true, 2⟩, ⟨fun _ => true, 3⟩] :
        List PendingMessage).findIdx?
      (fun x => x.response_predicate (.Short [0, 0, 0, 0, 0, 0])) = some 1) ∧
      (dispatchStep [⟨fun _ => false, 1⟩, ⟨fun _ => true, 2⟩, ⟨fun _ => true, 3⟩]
          (.Short [0, 0, 0, 0, 0, 0])).1 = some ⟨fun _ => true, 2⟩ ∧
      (dispatchStep [⟨fun _ => false, 1⟩, ⟨fun _ => true, 2⟩, ⟨fun _ => true, 3⟩]
          (.Short [0, 0, 0, 0, 0, 0])).2 =
        ([⟨fun _ => false, 1⟩, ⟨fun _ => true, 2⟩, ⟨fun _ => true, 3⟩] :
            List PendingMessage).take 1 ++
          ([⟨fun _ => false, 1⟩, ⟨fun _ => true, 2⟩, ⟨fun _ => true, 3⟩] :
            List PendingMessage).drop 2 := by
  have h := dispatch_earliest_match.1
    [⟨fun _ => false, 1⟩, ⟨fun _ => true, 2⟩, ⟨fun _ => true, 3⟩]
    (.Short [0, 0, 0, 0, 0, 0]) 1 ⟨fun _ => true, 2⟩ rfl rfl
  exact ⟨rfl, h.1, h.2.2.2⟩

/-! ## C8: a failed send leaves the pushed pending entry behind -/

theorem findIdx?_append_entry (st : List PendingMessage) (entry : PendingMessage)
    (m : HidppMessage) (hpred : entry.response_predicate m = true)
    (hnone : ∀ f ∈ st, f.response_predicate m = false) :
    (st ++ [entry]).findIdx? (fun x => x.response_predicate m) = some st.length := by
  induction st with
  | nil => simp [List.findIdx?_cons, hpred]
  | cons f st ih =>
      have hf : f.response_predicate m = false := hnone f (by simp)
      have ihr := ih (fun g hg => hnone g (by simp [hg]))
      simp [List.findIdx?_cons, hf, ihr]

/-- C8: `send` pushes its `{predicate, sink}` entry onto the pending queue
before writing the frame; when the underlying `write_report` fails, `send`
returns `Implementation(error)` to the caller but the pushed entry is NOT
removed — the queue still ends with it — so a later inbound message accepted
by its predicate (and by no older entry) is consumed by this abandoned
entry. -/
theorem send_error_keeps_pending :
    ∀ (supports_short supports_long : Bool) (st : List PendingMessage)
      (msg : HidppMessage) (entry : PendingMessage) (e : String),
      supports_msg supports_short supports_long msg = true →
      send_step supports_short supports_long st msg entry (.error e) =
          (.error (.Implementation e), st ++ [entry]) ∧
        entry ∈ (send_step supports_short supports_long st msg entry (.error e)).2 ∧
        (∀ m : HidppMessage, entry.response_predicate m = true →
          (∀ f ∈ st, f.response_predicate m = false) →
          dispatchStep (st ++ [entry]) m = (some entry, st)) := by
  intro ss sl st msg entry e hsup
  have hstep : send_step ss sl st msg entry (.error e) =
      (.error (.Implementation e), st ++ [entry]) := by
    simp [send_step, send_and_forget, hsup]
  refine ⟨hstep, ?_, ?_⟩
  · rw [hstep]
    simp
  · intro m hm hnone
    have e1 : (st ++ [entry]).take st.length = st := List.take_left' rfl
    have e2 : (st ++ [entry]).drop (st.length + 1) = [] :=
      List.drop_eq_nil_of_le (by simp)
    rw [dispatchStep, findIdx?_append_entry st entry m hm hnone]
    show ((st ++ [entry])[st.length]?, (st ++ [entry]).eraseIdx st.length) = _
    rw [List.getElem?_concat_length, List.eraseIdx_eq_take_drop_succ, e1, e2,
      List.append_nil]

/-- Witness for `send_error_keeps_pending` on an empty queue and a failing
write. -/
theorem send_error_keeps_pending_witness :
    supports_msg true true (.Short [0, 0, 0, 0, 0, 0]) = true ∧
      send_step true true [] (.Short [0, 0, 0, 0, 0, 0]) ⟨fun _ => true, 7⟩
          (.error "io failure") =
        (.error (.Implementation "io failure"), [] ++ [⟨fun _ => true, 7⟩]) :=
  ⟨rfl,
    (send_error_keeps_pending true true [] (.Short [0, 0, 0, 0, 0, 0])
      ⟨fun _ => true, 7⟩ "io failure" rfl).1⟩
